import Mathlib

/-!
Verification development for the data2csv remote MCP server
(`src/simple_remote_server.py`, `src/tools/csv_converter.py`,
`src/tools/excel_converter.py`, `src/models/data_models.py`).

The Python code is shallowly embedded: dynamic (JSON-ish) Python values
become the inductive type `JVal`, the global connection dictionary becomes
an association list threaded through every operation, and `try/except`
control flow becomes `Except`.
-/

/-- Dynamic JSON-ish values, as they appear in request bodies and tool
arguments (`Any` on the Python side). -/
inductive JVal where
  | null
  | bool (b : Bool)
  | num  (n : Int)
  | str  (s : String)
  | arr  (elems : List JVal)
  | obj  (fields : List (String × JVal))

/-- Python truthiness (`if x:`): `None`, `False`, `0`, `""`, `[]`, `{}` are
falsy, everything else truthy. -/
def pyFalsy : JVal → Bool
  | .null => true
  | .bool b => !b
  | .num n => n == 0
  | .str s => s == ""
  | .arr l => l.isEmpty
  | .obj l => l.isEmpty

/-- `isinstance(x, list)`. -/
def JVal.isArr : JVal → Bool
  | .arr _ => true
  | _ => false

/-- The elements of a list value (meaningful only after an `isArr` check). -/
def JVal.rows : JVal → List JVal
  | .arr l => l
  | _ => []

/-- `len(row)` for a row already known to be a list. -/
def rowLen : JVal → Nat
  | .arr l => l.length
  | _ => 0

/-- An apostrophe, so the source's error text can be reproduced. -/
def apos : String := String.singleton (Char.ofNat 39)

/-- `CSVConverter.validate_data` (csv_converter.py lines 68-94), checks in
source order: Python falsiness, `isinstance(data, list)`, all rows lists,
all rows the same length as the first. -/
def validate_data (data : JVal) : Bool × String :=
  if pyFalsy data then (false, "Data cannot be empty")
  else if !data.isArr then (false, "Data must be a list")
  else if !(data.rows.all (fun r => r.isArr)) then (false, "All rows must be lists")
  else
    let first_row_len := rowLen (data.rows.headD .null)
    if !(data.rows.all (fun r => rowLen r == first_row_len)) then
      (false, "All rows must have the same number of columns")
    else (true, "")

/-- Encode a Lean-level list of rows of values as the `JVal` the Python
caller would pass for it. -/
def listData (rows : List (List JVal)) : JVal :=
  .arr (rows.map .arr)

/-- `ConvertRequest` (data_models.py): `data`, optional `headers`, optional
`filename` (pydantic default `"data"` when the field is absent). -/
structure ConvertRequest where
  data : List (List JVal)
  headers : Option (List String)
  filename : Option String

/-- `ConvertResponse` (data_models.py). The source's `message` field is
`Optional[str]`, but every construction site supplies it, so it is a plain
`String` here. -/
structure ConvertResponse where
  success : Bool
  content : String
  content_type : String
  filename : String
  message : String

/-- Column count of `pd.DataFrame(data)` for a list of row lists: the
maximum row length (pandas pads short rows with NaN). -/
def numCols (data : List (List JVal)) : Nat :=
  data.foldr (fun r acc => max r.length acc) 0

/-- Rough rendering of one cell the way pandas stringifies it in CSV
output; no claim depends on the exact text of successful content. -/
def renderCell : JVal → String
  | .null => ""
  | .bool b => if b then "True" else "False"
  | .num n => toString n
  | .str s => s
  | .arr _ => "<list>"
  | .obj _ => "<dict>"

/-- Default pandas column labels 0,1,2,… used when no headers are set. -/
def defaultLabels (n : Nat) : List String :=
  (List.range n).map toString

/-- Approximation of `df.to_csv(index=False)`: header line, then the data
rows. No claim inspects this text; only the failure branches (which
return `""`) matter to the claims. -/
def dfToCsv (headers : Option (List String)) (data : List (List JVal)) : String :=
  let hs := headers.getD (defaultLabels (numCols data))
  String.intercalate "\n"
    (String.intercalate "," hs :: data.map (fun r => String.intercalate "," (r.map renderCell)))

/-- Abstraction of the base64-encoded workbook bytes produced by
`pd.ExcelWriter` + `base64.b64encode`; no claim inspects successful Excel
content, only that failure branches return `""`. -/
def xlsxBase64 (headers : Option (List String)) (data : List (List JVal)) : String :=
  "b64(" ++ dfToCsv headers data ++ ")"

/-- `f"{request.filename}"`: Python prints `None` for an explicit null. -/
def pyFilename : Option String → String
  | some s => s
  | none => "None"

/-- Truthiness of the `headers` field (`if request.headers:`): `None` and
the empty list are both falsy. -/
def headersTruthy : Option (List String) → Bool
  | some hs => !hs.isEmpty
  | none => false

/-- The header/column mismatch message of both converters. -/
def mismatchMessage (h c : Nat) : String :=
  "Headers count (" ++ toString h ++ ") doesn" ++ apos ++ "t match columns count ("
    ++ toString c ++ ")"

/-- `CSVConverter.convert_to_csv` (csv_converter.py lines 16-66). The
header check runs only when `request.headers` is truthy and compares
against the DataFrame's column count. -/
def CSVConverter.convert_to_csv (request : ConvertRequest) : ConvertResponse :=
  let cols := numCols request.data
  if headersTruthy request.headers then
    let hs := request.headers.getD []
    if hs.length == cols then
      { success := true
        content := dfToCsv (some hs) request.data
        content_type := "text/csv"
        filename := pyFilename request.filename ++ ".csv"
        message := "Successfully converted " ++ toString request.data.length
          ++ " rows to CSV format" }
    else
      { success := false, content := "", content_type := "text/plain", filename := ""
        message := mismatchMessage hs.length cols }
  else
    { success := true
      content := dfToCsv none request.data
      content_type := "text/csv"
      filename := pyFilename request.filename ++ ".csv"
      message := "Successfully converted " ++ toString request.data.length
        ++ " rows to CSV format" }

/-- `ExcelConverter.convert_to_excel` (excel_converter.py lines 16-75):
same header check as the CSV converter, base64 workbook on success. -/
def ExcelConverter.convert_to_excel (request : ConvertRequest) : ConvertResponse :=
  let cols := numCols request.data
  if headersTruthy request.headers then
    let hs := request.headers.getD []
    if hs.length == cols then
      { success := true
        content := xlsxBase64 (some hs) request.data
        content_type := "application/vnd.openxmlformats-officedocument.spreadsheetml.sheet"
        filename := pyFilename request.filename ++ ".xlsx"
        message := "Successfully converted " ++ toString request.data.length
          ++ " rows to Excel format" }
    else
      { success := false, content := "", content_type := "text/plain", filename := ""
        message := mismatchMessage hs.length cols }
  else
    { success := true
      content := xlsxBase64 none request.data
      content_type := "application/vnd.openxmlformats-officedocument.spreadsheetml.sheet"
      filename := pyFilename request.filename ++ ".xlsx"
      message := "Successfully converted " ++ toString request.data.length
        ++ " rows to Excel format" }

/-- `ExcelConverter.convert_to_excel_with_styling` (excel_converter.py
lines 78-165): identical header check; the styling pass only mutates the
workbook bytes, abstracted inside `xlsxBase64`. -/
def ExcelConverter.convert_to_excel_with_styling (request : ConvertRequest) : ConvertResponse :=
  let cols := numCols request.data
  if headersTruthy request.headers then
    let hs := request.headers.getD []
    if hs.length == cols then
      { success := true
        content := xlsxBase64 (some hs) request.data
        content_type := "application/vnd.openxmlformats-officedocument.spreadsheetml.sheet"
        filename := pyFilename request.filename ++ "_styled.xlsx"
        message := "Successfully converted " ++ toString request.data.length
          ++ " rows to styled Excel format" }
    else
      { success := false, content := "", content_type := "text/plain", filename := ""
        message := mismatchMessage hs.length cols }
  else
    { success := true
      content := xlsxBase64 none request.data
      content_type := "application/vnd.openxmlformats-officedocument.spreadsheetml.sheet"
      filename := pyFilename request.filename ++ "_styled.xlsx"
      message := "Successfully converted " ++ toString request.data.length
        ++ " rows to styled Excel format" }

/-- A JSON-RPC error object as dumped by `MCPResponse.model_dump`. -/
structure RpcError where
  code : Int
  message : String
  data : Option String := none
deriving DecidableEq

/-- The `result` payloads the dispatcher can produce. The static contents
of the `initialize` and `tools/list` payloads (protocol version, tool
catalog, …) are elided: no claim depends on them, only on which kind of
payload is present. `toolCall` carries the text content and the
`isError` flag of a `tools/call` result. -/
inductive RpcResult where
  | initResult
  | toolsListResult
  | toolCall (text : String) (isError : Bool)
deriving DecidableEq

/-- An `MCPResponse.model_dump(exclude_none=True)` dictionary: absent
fields are `none`. -/
structure DumpedResponse where
  id : Option JVal
  result : Option RpcResult
  error : Option RpcError

/-- The `ConnectionManager` state (simple_remote_server.py lines 30-52):
the `connections` dict mapping connection ids to their `asyncio.Queue`,
modelled as an association list of FIFO buffers. -/
structure ConnectionManager where
  connections : List (String × List DumpedResponse)

/-- `connection_id in self.connections`. -/
def ConnectionManager.hasConn (st : ConnectionManager) (cid : String) : Bool :=
  st.connections.any (fun p => p.1 == cid)

/-- The queue currently registered for `cid`, if any. -/
def ConnectionManager.getQueue (st : ConnectionManager) (cid : String) :
    Option (List DumpedResponse) :=
  (st.connections.find? (fun p => p.1 == cid)).map Prod.snd

/-- `ConnectionManager.connect` (lines 34-39): registers a fresh empty
queue under `cid` (dict assignment overwrites any entry with that key). -/
def ConnectionManager.connect (st : ConnectionManager) (cid : String) : ConnectionManager :=
  ⟨(cid, []) :: st.connections.filter (fun p => !(p.1 == cid))⟩

/-- `ConnectionManager.disconnect` (lines 41-45): deletes the entry if
present, otherwise does nothing. -/
def ConnectionManager.disconnect (st : ConnectionManager) (cid : String) : ConnectionManager :=
  if st.hasConn cid then ⟨st.connections.filter (fun p => !(p.1 == cid))⟩ else st

/-- `ConnectionManager.send_message` (lines 47-52): if the id is
registered, append the message to its queue (`await queue.put`); otherwise
log a warning and return normally — the state is untouched and the caller
sees no error. -/
def ConnectionManager.send_message (st : ConnectionManager) (cid : String)
    (m : DumpedResponse) : ConnectionManager :=
  if st.hasConn cid then
    ⟨st.connections.map (fun p => if p.1 == cid then (p.1, p.2 ++ [m]) else p)⟩
  else st

/-- A pydantic-validated `MCPRequest` (lines 60-64): optional `id`,
required string `method`, optional `params` dict. -/
structure MCPRequest where
  id : Option JVal
  method : String
  params : Option (List (String × JVal))

/-- What `POST /messages/{id}` receives, after `request.json()` and
`MCPRequest(**body)` have been attempted: either a well-formed request, or
a parse/validation failure carrying the exception text `e` (the raw
body's `id` field, which the code never recovers on this path, is kept
for stating claims about it). -/
inductive Body where
  | malformed (rawId : Option JVal) (e : String)
  | valid (req : MCPRequest)

/-- `dict.get(key, default)` on a `JVal`; a non-dict receiver raises
`AttributeError`, modelled as `Except.error`. -/
def JVal.get (v : JVal) (k : String) (dflt : JVal) : Except String JVal :=
  match v with
  | .obj fields => .ok (((fields.find? (fun p => p.1 == k)).map Prod.snd).getD dflt)
  | _ => .error ("AttributeError: get " ++ k)

/-- Python `x == "lit"` for a dynamic `x`: true exactly when `x` is that
string. -/
def JVal.eqStr (v : JVal) (s : String) : Bool :=
  match v with
  | .str t => t == s
  | _ => false

/-- Rough `str(x)` for f-string interpolation of a dynamic value. -/
def pyStr : JVal → String
  | .null => "None"
  | .bool b => if b then "True" else "False"
  | .num n => toString n
  | .str s => s
  | .arr _ => "<list>"
  | .obj _ => "<dict>"

/-- Pydantic decoding of the `headers` argument (`Optional[List[str]]`):
`None` passes, a list of strings passes, anything else raises a
validation error. -/
def decodeHeaders : JVal → Except String (Option (List String))
  | .null => .ok none
  | .arr l =>
    match l.mapM (fun v => match v with | .str s => some s | _ => none) with
    | some hs => .ok (some hs)
    | none => .error "validation error: headers must be a list of strings"
  | _ => .error "validation error: headers must be a list of strings"

/-- Pydantic decoding of the `filename` argument (`Optional[str]`). -/
def decodeFilename : JVal → Except String (Option String)
  | .null => .ok none
  | .str s => .ok (some s)
  | _ => .error "validation error: filename must be a string"

/-- `ConvertRequest(data=…, headers=…, filename=…)`: pydantic validation
may raise (modelled as `Except.error`), e.g. for non-string headers or an
empty `data` (field `min_length=1`). -/
def mkConvertRequest (data : List (List JVal)) (headers fname : JVal) :
    Except String ConvertRequest := do
  if data.isEmpty then
    throw "validation error: data must be non-empty"
  let hs ← decodeHeaders headers
  let f ← decodeFilename fname
  return ⟨data, hs, f⟩

/-- The rows of a validated `data` value (each element is a list, as
`validate_data` guaranteed). -/
def JVal.asRows (v : JVal) : List (List JVal) :=
  v.rows.map JVal.rows

/-- Text content of a tool result: the converted content on success,
`"Error: {message}"` on failure. -/
def convertResultText (r : ConvertResponse) : String :=
  if r.success then r.content else "Error: " ++ r.message

/-- The inner `try` body of the `tools/call` branch
(simple_remote_server.py lines 211-259). `Except.error e` means an
uncaught Python exception with text `e` escaped to the handler at line
264; `Except.ok r` is the `result` dict built by the branch. -/
def toolsCallBody (tool_name arguments : JVal) : Except String RpcResult := do
  if tool_name.eqStr "convert_to_csv" then
    let data ← arguments.get "data" (.arr [])
    let headers ← arguments.get "headers" .null
    let fname ← arguments.get "filename" (.str "data")
    let v := validate_data data
    if !v.1 then
      return .toolCall ("Error: " ++ v.2) true
    else
      let req ← mkConvertRequest data.asRows headers fname
      let resp := CSVConverter.convert_to_csv req
      return .toolCall (convertResultText resp) (!resp.success)
  else if tool_name.eqStr "convert_to_excel" then
    let data ← arguments.get "data" (.arr [])
    let headers ← arguments.get "headers" .null
    let fname ← arguments.get "filename" (.str "data")
    let styled ← arguments.get "styled" (.bool false)
    let v := validate_data data
    if !v.1 then
      return .toolCall ("Error: " ++ v.2) true
    else
      let req ← mkConvertRequest data.asRows headers fname
      let resp := if !(pyFalsy styled) then
          ExcelConverter.convert_to_excel_with_styling req
        else
          ExcelConverter.convert_to_excel req
      return .toolCall (convertResultText resp) (!resp.success)
  else
    return .toolCall ("Unknown tool: " ++ pyStr tool_name) true

/-- The JSON body returned by `POST /messages/{id}`:
`{"status": "message_queued"}` or `{"status": "error", "message": …}`. -/
inductive RespBody where
  | messageQueued
  | errorStatus (msg : String)
deriving DecidableEq

/-- An HTTP response: status code and JSON body. -/
structure HttpResponse where
  status : Nat
  body : RespBody
deriving DecidableEq

/-- `params = mcp_request.params or {}; params.get("name")` (lines
207-208): the `name` argument of a `tools/call` request, `None` when
absent. -/
def toolNameOf (req : MCPRequest) : JVal :=
  (((req.params.getD []).find? (fun p => p.1 == "name")).map Prod.snd).getD .null

/-- `params.get("arguments", {})` (line 209). -/
def toolArgsOf (req : MCPRequest) : JVal :=
  (((req.params.getD []).find? (fun p => p.1 == "arguments")).map Prod.snd).getD (.obj [])

/-- The id-less `-32603` response built by the outer `except` handler
(lines 284-286); `model_dump(exclude_none=True)` drops the absent `id`
and `result`. -/
def internalError (detail : String) : DumpedResponse :=
  ⟨none, none, some ⟨-32603, "Internal error", some detail⟩⟩

/-- `handle_messages` (simple_remote_server.py lines 145-288). The
unknown-connection branch raises `HTTPException(404)`, but that raise
happens inside the outer `try`, so the `except Exception` at line 282
catches it: the endpoint then attempts to enqueue an id-less `-32603`
response (a no-op, the id is unknown) and returns HTTP 200 with an error
body — the 404 never reaches the client. -/
def handle_messages (st : ConnectionManager) (cid : String) (body : Body) :
    HttpResponse × ConnectionManager :=
  if !st.hasConn cid then
    let detail := "404: Connection not found"
    (⟨200, .errorStatus detail⟩, st.send_message cid (internalError detail))
  else
    match body with
    | .malformed _rawId e =>
      (⟨200, .errorStatus e⟩, st.send_message cid (internalError e))
    | .valid req =>
      if req.method == "initialize" then
        (⟨200, .messageQueued⟩, st.send_message cid ⟨req.id, some .initResult, none⟩)
      else if req.method == "tools/list" then
        (⟨200, .messageQueued⟩, st.send_message cid ⟨req.id, some .toolsListResult, none⟩)
      else if req.method == "tools/call" then
        match toolsCallBody (toolNameOf req) (toolArgsOf req) with
        | .ok r =>
          (⟨200, .messageQueued⟩, st.send_message cid ⟨req.id, some r, none⟩)
        | .error e =>
          (⟨200, .messageQueued⟩,
            st.send_message cid ⟨req.id, some (.toolCall ("Error: " ++ e) true), none⟩)
      else
        (⟨200, .messageQueued⟩,
          st.send_message cid
            ⟨req.id, none, some ⟨-32601, "Method not found: " ++ req.method, none⟩⟩)

/-- `handle_messages st cid b` appends exactly the message `m` to `cid`'s
queue (and the queue existed). -/
def enqueues (st : ConnectionManager) (cid : String) (b : Body) (m : DumpedResponse) : Prop :=
  (handle_messages st cid b).2.getQueue cid = (st.getQueue cid).map (fun q => q ++ [m])

/-- One observation of the environment at the streaming loop's wait point
(`await asyncio.wait_for(queue.get(), timeout=30.0)`, lines 119-134):
a message arrived within 30 s, the 30 s timeout fired (which, by
`asyncio.Queue` semantics, can only happen while the queue is empty — a
buffered item makes `get()` return at once), a `CancelledError`, or any
other exception. -/
inductive GenEv where
  | msg (m : DumpedResponse)
  | timeout (ts : String)
  | cancel
  | err

/-- One event written to the SSE stream. -/
inductive SseOut where
  | endpoint (url : String) (cid : String)
  | data (m : DumpedResponse)
  | ping (ts : String)

/-- The `while True` loop plus the `finally` of `event_generator`
(lines 119-141): each environment observation yields one stream event or
breaks out; every exit path — the generator being closed from outside
(end of the observation list), cancellation, or an unexpected error —
falls through to the `finally` block, which calls
`connection_manager.disconnect`. -/
def eventLoopRun (st : ConnectionManager) (cid : String) :
    List GenEv → List SseOut × ConnectionManager
  | [] => ([], st.disconnect cid)
  | .msg m :: rest =>
    let r := eventLoopRun st cid rest
    (.data m :: r.1, r.2)
  | .timeout ts :: rest =>
    let r := eventLoopRun st cid rest
    (.ping ts :: r.1, r.2)
  | .cancel :: _ => ([], st.disconnect cid)
  | .err :: _ => ([], st.disconnect cid)

/-- The endpoint URL of the initial event (line 112). -/
def endpointUrl (host port cid : String) : String :=
  "http://" ++ host ++ ":" ++ port ++ "/messages/" ++ cid

/-- `event_generator` (lines 107-141): one `endpoint` event first, then
the streaming loop. -/
def event_generator (st : ConnectionManager) (host port cid : String) (evs : List GenEv) :
    List SseOut × ConnectionManager :=
  let r := eventLoopRun st cid evs
  (.endpoint (endpointUrl host port cid) cid :: r.1, r.2)

/-- `sse_endpoint` (lines 101-143): register a fresh connection, then run
the event generator over the stream's lifetime. -/
def sse_endpoint (st : ConnectionManager) (host port cid : String) (evs : List GenEv) :
    List SseOut × ConnectionManager :=
  event_generator (st.connect cid) host port cid evs

/-- State of one connection's queue/stream pair: the pending FIFO queue
(the `asyncio.Queue`), the events emitted so far on the stream, and a
history of every message ever enqueued for this connection. -/
structure RelayState where
  queue : List DumpedResponse
  emitted : List SseOut
  log : List DumpedResponse

/-- The interleaved actions on one connection:
`enqueue` is `send_message`'s `queue.put` for a registered id (line 50);
`deliver` is `queue.get()` completing inside `wait_for` and the loop
yielding the message (lines 121-123) — `asyncio.Queue` is FIFO, so it
hands over the head; `timeout` is the 30-second `TimeoutError` branch
(lines 124-128), which `asyncio.wait_for` can only take while the queue is
still empty (a buffered item completes `get()` immediately). -/
inductive RelayStep : RelayState → RelayState → Prop
  | enqueue (m : DumpedResponse) (q : List DumpedResponse) (em : List SseOut)
      (lg : List DumpedResponse) :
      RelayStep ⟨q, em, lg⟩ ⟨q ++ [m], em, lg ++ [m]⟩
  | deliver (m : DumpedResponse) (q : List DumpedResponse) (em : List SseOut)
      (lg : List DumpedResponse) :
      RelayStep ⟨m :: q, em, lg⟩ ⟨q, em ++ [.data m], lg⟩
  | timeout (ts : String) (em : List SseOut) (lg : List DumpedResponse) :
      RelayStep ⟨[], em, lg⟩ ⟨[], em ++ [.ping ts], lg⟩

/-- States reachable from a fresh connection (empty queue, nothing
emitted, nothing enqueued yet). -/
inductive RelayReach : RelayState → Prop
  | init : RelayReach ⟨[], [], []⟩
  | step {s s2 : RelayState} : RelayReach s → RelayStep s s2 → RelayReach s2

/-- The messages carried by the `data` events of a stream, in emission
order. -/
def emittedData (outs : List SseOut) : List DumpedResponse :=
  outs.filterMap (fun o => match o with | .data m => some m | _ => none)

/-- The module-level `sessions = {}` dict (line 73) together with the
connection manager: the whole mutable state of the server process. -/
structure ServerState where
  sessions : List (String × JVal)
  manager : ConnectionManager

/-- Process start: both dictionaries empty. -/
def initialState : ServerState :=
  ⟨[], ⟨[]⟩⟩

/-- The `/health` response body (lines 92-99). -/
structure HealthResponse where
  status : String
  timestamp : String
  sessions : Nat

/-- `GET /health`: reads `len(sessions)`. -/
def health (s : ServerState) (ts : String) : HealthResponse :=
  ⟨"healthy", ts, s.sessions.length⟩

/-- Every server state reachable by the operations the app exposes:
opening a stream (`connect`), any slice of a stream's life (`sse`, which
also covers the closing `disconnect`), a bare `disconnect`, a bare
`send_message`, a `POST /messages/{id}` (`handle_messages`), and the
read-only `GET /` and `GET /health`. None of them touches `sessions`. -/
inductive Reachable : ServerState → Prop
  | init : Reachable initialState
  | open_conn {s : ServerState} (cid : String) :
      Reachable s → Reachable ⟨s.sessions, s.manager.connect cid⟩
  | close_conn {s : ServerState} (cid : String) :
      Reachable s → Reachable ⟨s.sessions, s.manager.disconnect cid⟩
  | enqueue_msg {s : ServerState} (cid : String) (m : DumpedResponse) :
      Reachable s → Reachable ⟨s.sessions, s.manager.send_message cid m⟩
  | post_message {s : ServerState} (cid : String) (b : Body) :
      Reachable s → Reachable ⟨s.sessions, (handle_messages s.manager cid b).2⟩
  | sse_stream {s : ServerState} (host port cid : String) (evs : List GenEv) :
      Reachable s → Reachable ⟨s.sessions, (sse_endpoint s.manager host port cid evs).2⟩
  | read_only {s : ServerState} : Reachable s → Reachable s

/-- The response `handle_messages` builds for a well-formed request —
the dispatch of lines 159-278 factored out of the state-passing: each
branch constructs `MCPResponse(id=mcp_request.id, …)`, and a `tools/call`
whose inner body raises is converted at line 264 into a `result` payload
with `isError=true` carrying the exception text. -/
def dispatchResponse (req : MCPRequest) : DumpedResponse :=
  if req.method == "initialize" then ⟨req.id, some .initResult, none⟩
  else if req.method == "tools/list" then ⟨req.id, some .toolsListResult, none⟩
  else if req.method == "tools/call" then
    match toolsCallBody (toolNameOf req) (toolArgsOf req) with
    | .ok r => ⟨req.id, some r, none⟩
    | .error e => ⟨req.id, some (.toolCall ("Error: " ++ e) true), none⟩
  else ⟨req.id, none, some ⟨-32601, "Method not found: " ++ req.method, none⟩⟩

/-! ### Helper lemmas -/

theorem numCols_cons (a : List JVal) (as : List (List JVal)) :
    numCols (a :: as) = max a.length (numCols as) := rfl

theorem numCols_eq_of_rect : ∀ (data : List (List JVal)) (c : Nat), data ≠ [] →
    (∀ r ∈ data, r.length = c) → numCols data = c
  | [], _, hne, _ => absurd rfl hne
  | a :: as, c, _, h => by
    have ha : a.length = c := h a (List.mem_cons_self a as)
    cases as with
    | nil => simp [numCols, ha]
    | cons b bs =>
      have hbs : numCols (b :: bs) = c :=
        numCols_eq_of_rect (b :: bs) c (by simp)
          (fun r hr => h r (List.mem_cons_of_mem a hr))
      rw [numCols_cons, ha, hbs, max_self]

theorem hasConn_of_getQueue (st : ConnectionManager) (cid : String)
    (q : List DumpedResponse) (h : st.getQueue cid = some q) : st.hasConn cid = true := by
  unfold ConnectionManager.getQueue at h
  unfold ConnectionManager.hasConn
  rw [List.any_eq_true, ← List.find?_isSome]
  cases hf : st.connections.find? (fun p => p.1 == cid) with
  | none => rw [hf] at h; simp at h
  | some pr => rfl

theorem find?_update : ∀ (l : List (String × List DumpedResponse)) (cid k : String)
    (m : DumpedResponse) (q : List DumpedResponse),
    l.find? (fun p => p.1 == cid) = some (k, q) →
    (l.map (fun p => if p.1 == cid then (p.1, p.2 ++ [m]) else p)).find?
        (fun p => p.1 == cid) = some (k, q ++ [m])
  | [], _, _, _, _, h => by simp at h
  | (k0, q0) :: l, cid, k, m, q, h => by
    by_cases hk : k0 = cid
    · subst hk
      simp at h
      obtain ⟨rfl, rfl⟩ := h
      simp
    · simp [hk] at h
      simpa [hk] using find?_update l cid k m q h

theorem send_message_getQueue (st : ConnectionManager) (cid : String) (m : DumpedResponse)
    (q : List DumpedResponse) (hq : st.getQueue cid = some q) :
    (st.send_message cid m).getQueue cid = some (q ++ [m]) := by
  have hc := hasConn_of_getQueue st cid q hq
  unfold ConnectionManager.getQueue at hq ⊢
  unfold ConnectionManager.send_message
  rw [hc, if_pos rfl]
  cases hf : st.connections.find? (fun p => p.1 == cid) with
  | none => rw [hf] at hq; simp at hq
  | some pr =>
    obtain ⟨k0, q0⟩ := pr
    rw [hf] at hq
    have hq2 : q0 = q := by simpa using hq
    subst hq2
    dsimp only
    rw [find?_update st.connections cid k0 m q0 hf]
    rfl

theorem send_message_not_hasConn (st : ConnectionManager) (cid : String) (m : DumpedResponse)
    (h : st.hasConn cid = false) : st.send_message cid m = st := by
  unfold ConnectionManager.send_message
  simp [h]

theorem disconnect_hasConn_self (st : ConnectionManager) (cid : String) :
    (st.disconnect cid).hasConn cid = false := by
  unfold ConnectionManager.disconnect
  by_cases hb : st.hasConn cid = true
  · rw [if_pos hb]
    unfold ConnectionManager.hasConn
    rw [List.any_eq_false]
    intro x hx
    simpa using (List.mem_filter.mp hx).2
  · rw [if_neg hb]
    simpa using hb

theorem disconnect_not_hasConn (st : ConnectionManager) (cid : String)
    (h : st.hasConn cid = false) : st.disconnect cid = st := by
  unfold ConnectionManager.disconnect
  simp [h]

theorem eventLoopRun_snd : ∀ (evs : List GenEv) (st : ConnectionManager) (cid : String),
    (eventLoopRun st cid evs).2 = st.disconnect cid
  | [], _, _ => rfl
  | .msg _ :: rest, st, cid => by
    simpa [eventLoopRun] using eventLoopRun_snd rest st cid
  | .timeout _ :: rest, st, cid => by
    simpa [eventLoopRun] using eventLoopRun_snd rest st cid
  | .cancel :: _, _, _ => rfl
  | .err :: _, _, _ => rfl

theorem eventLoopRun_no_endpoint : ∀ (evs : List GenEv) (st : ConnectionManager) (cid : String)
    (o : SseOut), o ∈ (eventLoopRun st cid evs).1 → ∀ u c, o ≠ SseOut.endpoint u c
  | [], _, _, _, h => by simp [eventLoopRun] at h
  | .msg m :: rest, st, cid, o, h => by
    simp only [eventLoopRun, List.mem_cons] at h
    rcases h with h | h
    · subst h; simp
    · exact eventLoopRun_no_endpoint rest st cid o h
  | .timeout ts :: rest, st, cid, o, h => by
    simp only [eventLoopRun, List.mem_cons] at h
    rcases h with h | h
    · subst h; simp
    · exact eventLoopRun_no_endpoint rest st cid o h
  | .cancel :: _, _, _, _, h => by simp [eventLoopRun] at h
  | .err :: _, _, _, _, h => by simp [eventLoopRun] at h

theorem emittedData_append (a b : List SseOut) :
    emittedData (a ++ b) = emittedData a ++ emittedData b := by
  simp [emittedData, List.filterMap_append]

/-! ### Claim theorems -/

/-- C9: `validate_data` rejects `[]` with message "Data cannot be empty",
rejects the ragged `[[1,2],[3]]`, accepts `[[1,2],[3,4]]`; and on every
list of lists it accepts exactly the non-empty inputs all of whose rows
have the first row's length. -/
theorem validate_data_characterization :
    validate_data (listData []) = (false, "Data cannot be empty") ∧
    (validate_data (listData [[.num 1, .num 2], [.num 3]])).1 = false ∧
    (validate_data (listData [[.num 1, .num 2], [.num 3, .num 4]])).1 = true ∧
    ∀ rows : List (List JVal),
      (validate_data (listData rows)).1 = true ↔
        (rows ≠ [] ∧ ∀ r ∈ rows, r.length = (rows.headD []).length) := by
  refine ⟨rfl, rfl, rfl, ?_⟩
  intro rows
  cases rows with
  | nil => simp [validate_data, listData, pyFalsy]
  | cons a as =>
    simp [validate_data, listData, pyFalsy, JVal.isArr, JVal.rows, rowLen,
      List.all_map, Function.comp, List.all_eq_true]
    by_cases h : ∀ r ∈ as, r.length = a.length
    · have h2 : ¬ ∃ r ∈ as, ¬ r.length = a.length := by push_neg; exact h
      rw [if_neg h2]
      simpa using h
    · have h2 : ∃ r ∈ as, ¬ r.length = a.length := by push_neg at h; exact h
      simp [h, h2]

/-- C9 witness: the characterization applied at the concrete rectangular
input `[[1],[2]]`. -/
theorem validate_data_characterization_witness :
    (validate_data (listData [[.num 1], [.num 2]])).1 = true :=
  (validate_data_characterization.2.2.2 [[.num 1], [.num 2]]).mpr (by simp)

/-- C5 counterexample: `headers = []` is present and its length 0 differs
from `len(data[0]) = 2`, yet all three converters succeed — the source
guards the mismatch check with `if request.headers:` and the empty list is
falsy, so the check never runs. -/
theorem header_mismatch_counterexample :
    (CSVConverter.convert_to_csv ⟨[[.num 1, .num 2]], some [], some "data"⟩).success = true ∧
    (ExcelConverter.convert_to_excel ⟨[[.num 1, .num 2]], some [], some "data"⟩).success = true ∧
    (ExcelConverter.convert_to_excel_with_styling
        ⟨[[.num 1, .num 2]], some [], some "data"⟩).success = true ∧
    ([] : List String).length ≠ [JVal.num 1, JVal.num 2].length :=
  ⟨rfl, rfl, rfl, by decide⟩

/-- C5 (amended): for a request with non-empty rectangular `data` and a
present, non-empty `headers` whose length differs from `len(data[0])`,
each of the three converters returns `success = false`, empty content and
the descriptive mismatch message. (With `headers` merely present the claim
fails on `headers=[]`, and with ragged data the converters compare against
the DataFrame's column count — the maximum row length — instead of
`len(data[0])`.) -/
theorem header_mismatch_rejected (data : List (List JVal)) (hs : List String)
    (fname : Option String) (hne : data ≠ [])
    (hrect : ∀ r ∈ data, r.length = (data.headD []).length)
    (hhs : hs ≠ []) (hmis : hs.length ≠ (data.headD []).length) :
    (CSVConverter.convert_to_csv ⟨data, some hs, fname⟩).success = false ∧
    (CSVConverter.convert_to_csv ⟨data, some hs, fname⟩).content = "" ∧
    (CSVConverter.convert_to_csv ⟨data, some hs, fname⟩).message
      = mismatchMessage hs.length (numCols data) ∧
    (ExcelConverter.convert_to_excel ⟨data, some hs, fname⟩).success = false ∧
    (ExcelConverter.convert_to_excel ⟨data, some hs, fname⟩).content = "" ∧
    (ExcelConverter.convert_to_excel_with_styling ⟨data, some hs, fname⟩).success = false ∧
    (ExcelConverter.convert_to_excel_with_styling ⟨data, some hs, fname⟩).content = "" := by
  have hcols : numCols data = (data.headD []).length :=
    numCols_eq_of_rect data _ hne hrect
  have hb : (hs.length == numCols data) = false := by
    rw [hcols]
    exact beq_eq_false_iff_ne.mpr hmis
  have hb2 : ¬ hs.length = numCols data := by
    rw [hcols]
    exact hmis
  have ht : headersTruthy (some hs) = true := by
    cases hs with
    | nil => exact absurd rfl hhs
    | cons x xs => rfl
  simp [CSVConverter.convert_to_csv, ExcelConverter.convert_to_excel,
    ExcelConverter.convert_to_excel_with_styling, ht, hb, hb2]

/-- C5 witness: the amended statement applied at
`data=[[1,2]], headers=["a"]` (1 header for 2 columns). -/
theorem header_mismatch_rejected_witness :
    (CSVConverter.convert_to_csv ⟨[[.num 1, .num 2]], some ["a"], some "data"⟩).success
      = false :=
  (header_mismatch_rejected [[.num 1, .num 2]] ["a"] (some "data")
    (by simp) (by simp) (by simp) (by simp)).1

/-- C1 counterexample: enqueuing to an id absent from the mapping is not a
failure observable by the caller — `send_message` returns normally with
the state unchanged (the source only logs a warning on this branch), so no
`ConnectionNotFound` condition exists. -/
theorem send_message_unknown_counterexample :
    ConnectionManager.send_message ⟨[]⟩ "conn-1" ⟨none, none, none⟩ = ⟨[]⟩ ∧
    (⟨[]⟩ : ConnectionManager).hasConn "conn-1" = false :=
  ⟨rfl, rfl⟩

/-- C1 (amended): `send_message` to an id not in the mapping is a silent
no-op — it returns normally and every queue is unchanged, with no failure
condition surfaced to the caller; to a registered id it appends the
message at the tail of that connection's queue (FIFO). -/
theorem send_message_noop_or_append (st : ConnectionManager) (cid : String)
    (m : DumpedResponse) :
    (st.hasConn cid = false → st.send_message cid m = st) ∧
    (∀ q, st.getQueue cid = some q →
      (st.send_message cid m).getQueue cid = some (q ++ [m])) :=
  ⟨fun h => send_message_not_hasConn st cid m h,
   fun q hq => send_message_getQueue st cid m q hq⟩

/-- C1 witness: appending to the registered connection `"c"`. -/
theorem send_message_noop_or_append_witness :
    (ConnectionManager.send_message ⟨[("c", [])]⟩ "c" ⟨none, none, none⟩).getQueue "c"
      = some ([] ++ [⟨none, none, none⟩]) :=
  (send_message_noop_or_append ⟨[("c", [])]⟩ "c" ⟨none, none, none⟩).2 [] rfl

/-- C2 (code bug): posting to an unregistered connection id. The source
clearly intends HTTP 404 (`raise HTTPException(status_code=404,
detail="Connection not found")`), but the raise sits inside the outer
`try`, whose `except Exception` at line 282 swallows it: the client
receives HTTP 200 with `{"status":"error",...}`. No queue is mutated —
the follow-up `send_message` on the unknown id is a no-op, so the manager
state is returned unchanged. -/
theorem unknown_connection_http200_not_404 :
    (handle_messages ⟨[("live", [])]⟩ "missing"
        (.valid ⟨some (.num 1), "initialize", none⟩)).1
      = ⟨200, .errorStatus "404: Connection not found"⟩ ∧
    (handle_messages ⟨[("live", [])]⟩ "missing"
        (.valid ⟨some (.num 1), "initialize", none⟩)).2
      = ⟨[("live", [])]⟩ :=
  ⟨rfl, rfl⟩

theorem handle_messages_valid (st : ConnectionManager) (cid : String) (req : MCPRequest)
    (hc : st.hasConn cid = true) :
    handle_messages st cid (.valid req) =
      (⟨200, .messageQueued⟩, st.send_message cid (dispatchResponse req)) := by
  unfold handle_messages dispatchResponse
  rw [hc]
  by_cases h1 : (req.method == "initialize") = true
  · simp [h1]
  · by_cases h2 : (req.method == "tools/list") = true
    · simp [h1, h2]
    · by_cases h3 : (req.method == "tools/call") = true
      · cases htc : toolsCallBody (toolNameOf req) (toolArgsOf req) with
        | ok r => simp [h1, h2, h3, htc]
        | error e => simp [h1, h2, h3, htc]
      · simp [h1, h2, h3]

theorem dispatchResponse_id (req : MCPRequest) : (dispatchResponse req).id = req.id := by
  unfold dispatchResponse
  by_cases h1 : (req.method == "initialize") = true
  · simp [h1]
  · by_cases h2 : (req.method == "tools/list") = true
    · simp [h1, h2]
    · by_cases h3 : (req.method == "tools/call") = true
      · cases htc : toolsCallBody (toolNameOf req) (toolArgsOf req) with
        | ok r => simp [h1, h2, h3, htc]
        | error e => simp [h1, h2, h3, htc]
      · simp [h1, h2, h3]

theorem enqueues_valid (st : ConnectionManager) (cid : String) (q : List DumpedResponse)
    (hq : st.getQueue cid = some q) (req : MCPRequest) :
    enqueues st cid (.valid req) (dispatchResponse req) := by
  unfold enqueues
  rw [handle_messages_valid st cid req (hasConn_of_getQueue st cid q hq), hq]
  exact send_message_getQueue st cid _ q hq

theorem enqueues_malformed (st : ConnectionManager) (cid : String) (q : List DumpedResponse)
    (hq : st.getQueue cid = some q) (rawId : Option JVal) (e : String) :
    enqueues st cid (.malformed rawId e) (internalError e) := by
  have hc := hasConn_of_getQueue st cid q hq
  unfold enqueues
  simp [handle_messages, hc, hq]
  exact send_message_getQueue st cid _ q hq

/-- C3 counterexample: a registered connection posts a `tools/call` whose
handler raises (pydantic rejects `headers=5` while building the
`ConvertRequest`). The claim says the enqueued response must carry a
protocol-level `error.code == -32603` and never a result payload; the code
instead catches the exception at line 264 and enqueues a response whose
`result` carries `isError=true` and whose `error` field is absent. -/
theorem tool_exception_yields_result_not_32603 :
    ((handle_messages ⟨[("c", [])]⟩ "c" (.valid ⟨some (.num 7), "tools/call",
        some [("name", .str "convert_to_csv"),
              ("arguments", .obj [("data", .arr [.arr [.num 1]]),
                                  ("headers", .num 5)])]⟩)).2).getQueue "c"
      = some [⟨some (.num 7),
               some (.toolCall "Error: validation error: headers must be a list of strings" true),
               none⟩] := rfl

/-- C3 (amended): with a registered connection, an unsupported method
enqueues a `-32601` protocol error, and an exception raised before
dispatch (malformed envelope) enqueues the `-32603` internal error
carrying the exception text; but an exception raised inside the
`tools/call` handler is caught at line 264 and enqueued as a JSON-RPC
response whose `result` payload has `isError=true` and the exception text
— a result payload, not a protocol-level `-32603` error. -/
theorem dispatcher_error_taxonomy (st : ConnectionManager) (cid : String)
    (q : List DumpedResponse) (hq : st.getQueue cid = some q) :
    (∀ req : MCPRequest, req.method ≠ "initialize" → req.method ≠ "tools/list" →
      req.method ≠ "tools/call" →
      enqueues st cid (.valid req)
        ⟨req.id, none, some ⟨-32601, "Method not found: " ++ req.method, none⟩⟩) ∧
    (∀ rawId e, enqueues st cid (.malformed rawId e) (internalError e) ∧
      (internalError e).error = some ⟨-32603, "Internal error", some e⟩) ∧
    (∀ req e, req.method = "tools/call" →
      toolsCallBody (toolNameOf req) (toolArgsOf req) = .error e →
      enqueues st cid (.valid req)
        ⟨req.id, some (.toolCall ("Error: " ++ e) true), none⟩) := by
  refine ⟨?_, ?_, ?_⟩
  · intro req h1 h2 h3
    have hd : dispatchResponse req
        = ⟨req.id, none, some ⟨-32601, "Method not found: " ++ req.method, none⟩⟩ := by
      unfold dispatchResponse
      simp [h1, h2, h3]
    exact hd ▸ enqueues_valid st cid q hq req
  · intro rawId e
    exact ⟨enqueues_malformed st cid q hq rawId e, rfl⟩
  · intro req e hm htc
    have hd : dispatchResponse req
        = ⟨req.id, some (.toolCall ("Error: " ++ e) true), none⟩ := by
      unfold dispatchResponse
      simp [hm, htc]
    exact hd ▸ enqueues_valid st cid q hq req

/-- C3 witness: the unsupported method `"frobnicate"` on the registered
connection `"c"`. -/
theorem dispatcher_error_taxonomy_witness :
    enqueues ⟨[("c", [])]⟩ "c" (.valid ⟨none, "frobnicate", none⟩)
      ⟨none, none, some ⟨-32601, "Method not found: " ++ "frobnicate", none⟩⟩ :=
  (dispatcher_error_taxonomy ⟨[("c", [])]⟩ "c" [] rfl).1 ⟨none, "frobnicate", none⟩
    (by decide) (by decide) (by decide)

/-- C4 counterexample: a request whose body carries `id = 5` but fails
envelope validation takes the outer `except` path, which builds
`MCPResponse(error=…)` without an id: the enqueued response's `id` is
absent, not the originating request's `5`. -/
theorem internal_error_response_drops_id :
    ((handle_messages ⟨[("c", [])]⟩ "c" (.malformed (some (.num 5)) "boom")).2).getQueue "c"
      = some [⟨none, none, some ⟨-32603, "Internal error", some "boom"⟩⟩] ∧
    some (JVal.num 5) ≠ (none : Option JVal) :=
  ⟨rfl, by simp⟩

/-- C4 (amended): on the dispatch paths (initialize, tools/list,
tools/call — success, tool error, or caught exception — and unknown
method) the enqueued response carries the originating request's `id`; on
the internal-error path the enqueued response carries no id at all,
whatever id the raw request body held. -/
theorem response_id_discipline (st : ConnectionManager) (cid : String)
    (q : List DumpedResponse) (hq : st.getQueue cid = some q) :
    (∀ req : MCPRequest, ∃ m : DumpedResponse,
      enqueues st cid (.valid req) m ∧ m.id = req.id) ∧
    (∀ rawId e, enqueues st cid (.malformed rawId e) (internalError e) ∧
      (internalError e).id = none) :=
  ⟨fun req => ⟨dispatchResponse req, enqueues_valid st cid q hq req, dispatchResponse_id req⟩,
   fun rawId e => ⟨enqueues_malformed st cid q hq rawId e, rfl⟩⟩

/-- C4 witness: the internal-error path on connection `"c"`, for a raw
body carrying id `3`, enqueues the id-less `-32603` response. -/
theorem response_id_discipline_witness :
    enqueues ⟨[("c", [])]⟩ "c" (.malformed (some (.num 3)) "bad json") (internalError "bad json")
      ∧ (internalError "bad json").id = none :=
  (response_id_discipline ⟨[("c", [])]⟩ "c" [] rfl).2 (some (.num 3)) "bad json"

/-- C6: on every exit of a connection's streaming loop — the generator
being closed after normal streaming, cancellation, or an unexpected error
at the wait/emit point — the manager's `disconnect` runs for that
connection id, so the id is absent from the mapping afterwards; and
`disconnect` is idempotent: closing an unknown or already-closed id
returns the state unchanged. -/
theorem stream_cleanup_and_idempotent_close :
    (∀ (st : ConnectionManager) (host port cid : String) (evs : List GenEv),
      ((sse_endpoint st host port cid evs).2).hasConn cid = false) ∧
    (∀ (st : ConnectionManager) (cid : String),
      st.hasConn cid = false → st.disconnect cid = st) := by
  constructor
  · intro st host port cid evs
    show ((eventLoopRun (st.connect cid) cid evs).2).hasConn cid = false
    rw [eventLoopRun_snd]
    exact disconnect_hasConn_self _ cid
  · intro st cid h
    exact disconnect_not_hasConn st cid h

/-- C6 witness: closing the id `"gone"` on an empty manager is a no-op,
and a cancelled stream leaves `"c"` unregistered. -/
theorem stream_cleanup_and_idempotent_close_witness :
    ConnectionManager.disconnect ⟨[]⟩ "gone" = ⟨[]⟩ :=
  stream_cleanup_and_idempotent_close.2 ⟨[]⟩ "gone" rfl

/-- C7: in every reachable state of a connection's queue/stream pair, the
messages already emitted followed by the still-pending queue equal the
full enqueue history in order — so two messages enqueued in order are
emitted in that order (FIFO); and any step that emits a ping is a timeout
step, which can only fire with an empty queue and leaves both the queue
and the enqueue history untouched. -/
theorem relay_fifo_and_ping_only_when_empty :
    (∀ s : RelayState, RelayReach s → emittedData s.emitted ++ s.queue = s.log) ∧
    (∀ s s2 : RelayState, RelayStep s s2 → ∀ ts : String,
      s2.emitted = s.emitted ++ [SseOut.ping ts] →
      s.queue = [] ∧ s2.queue = [] ∧ s2.log = s.log) := by
  constructor
  · intro s hs
    induction hs with
    | init => rfl
    | step hr hstep ih =>
      cases hstep with
      | enqueue m q em lg =>
        simp only [] at ih ⊢
        rw [← List.append_assoc, ih]
      | deliver m q em lg =>
        simp [emittedData_append, emittedData] at ih ⊢
        exact ih
      | timeout ts em lg =>
        simp only [emittedData_append] at ih ⊢
        simp only [emittedData] at ih ⊢
        simpa using ih
  · intro s s2 hstep ts hem
    cases hstep with
    | enqueue m q em lg => simp at hem
    | deliver m q em lg => simp at hem
    | timeout ts2 em lg => exact ⟨rfl, rfl, rfl⟩

/-- C7 witness: after enqueuing one message and delivering it, the emitted
messages followed by the (empty) queue equal the enqueue log. -/
theorem relay_fifo_and_ping_only_when_empty_witness :
    emittedData [SseOut.data ⟨none, none, none⟩] ++ [] = [(⟨none, none, none⟩ : DumpedResponse)] :=
  relay_fifo_and_ping_only_when_empty.1
    ⟨[], [SseOut.data ⟨none, none, none⟩], [⟨none, none, none⟩]⟩
    (RelayReach.step
      (RelayReach.step RelayReach.init (RelayStep.enqueue ⟨none, none, none⟩ [] [] []))
      (RelayStep.deliver ⟨none, none, none⟩ [] [] [⟨none, none, none⟩]))

/-- C8: every stream opened via `GET /sse` emits exactly one `endpoint`
event — carrying the connection id and the `/messages/{id}` URL — before
any other event (no later event is an endpoint event); and a 30-second
timeout while streaming emits exactly one ping carrying the clock's
timestamp and continues the loop unchanged (the connection stays open and
behaves as it would have on the remaining events). -/
theorem endpoint_first_and_ping_keeps_streaming :
    (∀ (st : ConnectionManager) (host port cid : String) (evs : List GenEv),
      (sse_endpoint st host port cid evs).1.head?
          = some (.endpoint (endpointUrl host port cid) cid) ∧
      ∀ o ∈ (sse_endpoint st host port cid evs).1.tail,
        ∀ u c, o ≠ SseOut.endpoint u c) ∧
    (∀ (st : ConnectionManager) (cid ts : String) (rest : List GenEv),
      eventLoopRun st cid (GenEv.timeout ts :: rest)
        = (SseOut.ping ts :: (eventLoopRun st cid rest).1, (eventLoopRun st cid rest).2)) := by
  refine ⟨fun st host port cid evs => ⟨rfl, ?_⟩, fun st cid ts rest => rfl⟩
  intro o ho
  exact eventLoopRun_no_endpoint evs (st.connect cid) cid o ho

/-- C8 witness: a one-timeout stream—its head is the endpoint event, and
the ping event in its tail is not an endpoint event. -/
theorem endpoint_first_and_ping_keeps_streaming_witness :
    ∀ u c, SseOut.ping "t0" ≠ SseOut.endpoint u c :=
  ((endpoint_first_and_ping_keeps_streaming.1 ⟨[]⟩ "h" "80" "c" [GenEv.timeout "t0"]).2
    (SseOut.ping "t0") (List.mem_singleton.mpr rfl))

/-- C10: in every reachable server state the module-level `sessions` dict
is still empty — no operation the app exposes ever writes it (live
connections are tracked in the ConnectionManager instead) — so the
`sessions` field of every `GET /health` response is 0. -/
theorem health_sessions_always_zero (s : ServerState) (ts : String) (h : Reachable s) :
    (health s ts).sessions = 0 := by
  have hs : s.sessions = [] := by
    induction h with
    | init => rfl
    | open_conn cid _ ih => exact ih
    | close_conn cid _ ih => exact ih
    | enqueue_msg cid m _ ih => exact ih
    | post_message cid b _ ih => exact ih
    | sse_stream host port cid evs _ ih => exact ih
    | read_only _ ih => exact ih
  simp [health, hs]

/-- C10 witness: the initial state is reachable and reports 0 sessions. -/
theorem health_sessions_always_zero_witness :
    (health initialState "2026-10-12T00:00:00").sessions = 0 :=
  health_sessions_always_zero initialState "2026-10-12T00:00:00" Reachable.init
